import Mathlib

/-!
Verification of the kilotravel reservation / status-tracking core.

The authoritative behaviour lives in the Supabase migration
`supabase/migrations/20260127082235_*.sql` (tables, triggers, row-level
security policies) together with the page-level handlers
(`ReservationModal.handleSubmit`, `Track.handleSearch`,
`AdminDashboard.handleUpdateStatus` / `handleSaveOffer` / `handleDeleteOffer`).
This file embeds those pieces shallowly: each PL/pgSQL trigger function and
each RLS policy becomes a Lean function of the same name, the database is an
explicit record of table contents with a logical clock, and every API-level
operation composes the RLS check with the trigger pipeline exactly as
PostgreSQL would run them.
-/

deriving instance DecidableEq for Except

namespace Kilotravel

/-- Enum `public.shipment_status` from the migration (lines 2 to 8). -/
inductive shipment_status
  | pending_submission
  | received_at_origin
  | in_transit
  | arrived_at_destination
  | delivered
deriving DecidableEq

/-- Row of `public.cargo_offers` (migration lines 32 to 47).
`departure_date` is kept as its wire string, timestamps as a logical clock,
`price_per_kilo` in minor units; `total_kilos` and `available_kilos` are
SQL INTEGER, hence `Int` (nothing in the schema keeps them nonnegative). -/
structure CargoOffer where
  id : Nat
  departure_city : String
  departure_country : String
  departure_country_flag : String
  arrival_city : String
  arrival_country : String
  arrival_country_flag : String
  departure_date : String
  total_kilos : Int
  available_kilos : Int
  price_per_kilo : Int
  is_active : Bool
  created_at : Nat
  updated_at : Nat
deriving DecidableEq

/-- Row of `public.reservations` (migration lines 50 to 61).
`tracking_code` is nullable until the BEFORE INSERT trigger fills it. -/
structure Reservation where
  id : Nat
  user_id : Nat
  cargo_offer_id : Nat
  kilos_reserved : Int
  shipment_description : Option String
  status : shipment_status
  tracking_code : Option String
  status_updated_at : Nat
  created_at : Nat
  updated_at : Nat
deriving DecidableEq

/-- Row of `public.status_history` (migration lines 64 to 70). -/
structure StatusHistoryEntry where
  id : Nat
  reservation_id : Nat
  status : shipment_status
  notes : Option String
  created_at : Nat
deriving DecidableEq

/-- The persistent database: the three tables the lifecycle touches, a
sequence for history row ids, and a logical `now` for `now()`. -/
structure DBState where
  offers : List CargoOffer
  reservations : List Reservation
  status_history : List StatusHistoryEntry
  histSeq : Nat
  now : Nat
deriving DecidableEq

/-- The acting identity as the RLS policies see it: `auth.uid()` is `none`
for an anonymous request; `admin` abbreviates membership of `(uid, admin)`
in `public.user_roles`, which is what `public.has_role(auth.uid(), 'admin')`
(migration lines 80 to 93) looks up. -/
inductive Actor
  | anon
  | auth (uid : Nat) (admin : Bool)
deriving DecidableEq

/-- The SQL `auth.uid()`. -/
def authUid : Actor → Option Nat
  | .anon => none
  | .auth uid _ => some uid

/-- The SQL `public.has_role(auth.uid(), 'admin')` evaluated against the actor's
role set. -/
def has_role_admin : Actor → Bool
  | .anon => false
  | .auth _ admin => admin

/-! ## Row-level-security policies on `public.reservations`
(migration lines 268 to 287). There are exactly five policies: two SELECT,
one INSERT, two UPDATE — and none for DELETE. -/

/-- The SQL command a policy applies to. -/
inductive Cmd
  | select
  | insert
  | update
  | delete
deriving DecidableEq

/-- One RLS policy: which command it covers and its USING / WITH CHECK
predicate over the actor and the row. -/
structure Policy where
  cmd : Cmd
  check : Actor → Reservation → Bool

/-- The five policies on `public.reservations`, in migration order:
"Users can view their own reservations", "Admins can view all reservations",
"Users can create reservations", "Admins can update reservations",
"Users can update their pending reservations". -/
def reservationPolicies : List Policy :=
  [ ⟨.select, fun a r => authUid a == some r.user_id⟩,
    ⟨.select, fun a _ => has_role_admin a⟩,
    ⟨.insert, fun a r => authUid a == some r.user_id⟩,
    ⟨.update, fun a _ => has_role_admin a⟩,
    ⟨.update, fun a r =>
      authUid a == some r.user_id && r.status == .pending_submission⟩ ]

/-- Permissive-policy semantics: a command is allowed on a row when some
policy for that command accepts it; with no policy for the command the
filter is empty and the row is never allowed (default deny). -/
def allowedCmd (c : Cmd) (a : Actor) (r : Reservation) : Bool :=
  (reservationPolicies.filter (fun p => p.cmd == c)).any (fun p => p.check a r)

/-! ## Trigger functions -/

/-- The alphabet string `chars` of `public.generate_tracking_code`
(migration lines 96 to 110). -/
def trackingChars : String := "ABCDEFGHIJKLMNOPQRSTUVWXYZ0123456789"

/-- Function `public.generate_tracking_code()`: eight times, append
`substr(chars, floor(random() * 36 + 1), 1)` to `'KG-'`. `random()` lies in
`[0,1)`, so the 1-based index `floor(random()*36 + 1)` lies in `1..36`;
the draw is modelled as the 0-based `rand i : Fin 36` for loop step `i`. -/
def generate_tracking_code (rand : Nat → Fin 36) : String :=
  "KG-" ++ String.mk ((List.range 8).map (fun i => trackingChars.data.getD (rand i).val 'A'))

/-- Function `public.set_tracking_code()` (BEFORE INSERT trigger, migration lines
113 to 128): generate a code only when `NEW.tracking_code IS NULL`. -/
def set_tracking_code (rand : Nat → Fin 36) (r : Reservation) : Reservation :=
  if r.tracking_code = none then
    { r with tracking_code := some (generate_tracking_code rand) }
  else r

/-- The `TG_OP` of a row trigger on `public.reservations`. -/
inductive TgOp
  | insert
  | delete
deriving DecidableEq

/-- Function `public.update_available_kilos()` (AFTER INSERT OR DELETE trigger,
migration lines 131 to 153): on INSERT subtract `NEW.kilos_reserved` from
the referenced offer, on DELETE add `OLD.kilos_reserved` back. There is no
capacity check and no clamping of any kind. -/
def update_available_kilos : TgOp → List CargoOffer → Reservation → List CargoOffer
  | .insert, offers, new =>
      offers.map (fun o =>
        if o.id == new.cargo_offer_id then
          { o with available_kilos := o.available_kilos - new.kilos_reserved }
        else o)
  | .delete, offers, old =>
      offers.map (fun o =>
        if o.id == old.cargo_offer_id then
          { o with available_kilos := o.available_kilos + old.kilos_reserved }
        else o)

/-- Function `public.log_status_change()` (BEFORE UPDATE trigger, migration lines
156 to 174): when `OLD.status IS DISTINCT FROM NEW.status`, insert one
`status_history` row carrying the new status (the trigger passes no notes,
so `notes` is NULL) and set `NEW.status_updated_at := now()`; otherwise
change nothing. Returns the possibly-amended NEW row and the history row
to insert, if any. -/
def log_status_change (now histSeq : Nat) (old new : Reservation) :
    Reservation × Option StatusHistoryEntry :=
  if old.status ≠ new.status then
    ({ new with status_updated_at := now },
     some { id := histSeq, reservation_id := new.id, status := new.status,
            notes := none, created_at := now })
  else (new, none)

/-! ## Database operations (RLS check plus trigger pipeline) -/

/-- Error surfaced by a failed statement. -/
inductive DBError
  | rlsViolation
  | uniqueViolation
  | fkViolation
deriving DecidableEq

/-- Does some existing reservation already carry this tracking code
(the UNIQUE constraint on `reservations.tracking_code`)? -/
def codeTaken (st : DBState) (c : Option String) : Bool :=
  match c with
  | none => false
  | some s => st.reservations.any (fun r => r.tracking_code == some s)

/-- INSERT on `public.reservations` below the RLS layer, in PostgreSQL
order: BEFORE INSERT trigger `set_tracking_code`, then the NOT NULL foreign
key to `cargo_offers`, the primary key, and the tracking-code UNIQUE
constraint, then the row lands and the AFTER INSERT trigger
`update_available_kilos` fires. -/
def rawInsertReservation (rand : Nat → Fin 36) (row : Reservation) (st : DBState) :
    Except DBError DBState :=
  let row := set_tracking_code rand row
  if !(st.offers.any (fun o => o.id == row.cargo_offer_id)) then .error .fkViolation
  else if st.reservations.any (fun r => r.id == row.id) then .error .uniqueViolation
  else if codeTaken st row.tracking_code then .error .uniqueViolation
  else .ok { st with
    reservations := st.reservations ++ [row],
    offers := update_available_kilos .insert st.offers row }

/-- INSERT on `public.reservations` through the data API: the WITH CHECK of
the single INSERT policy (`auth.uid() = user_id`, which reads nothing the
triggers change), then the raw insert. -/
def apiInsertReservation (a : Actor) (rand : Nat → Fin 36) (row : Reservation)
    (st : DBState) : Except DBError DBState :=
  if allowedCmd .insert a row then rawInsertReservation rand row st
  else .error .rlsViolation

/-- Outcome of the reservation-modal submit handler. -/
inductive ReserveOutcome
  | ok (st : DBState)
  | clientError
  | dbError (e : DBError)
deriving DecidableEq

/-- The row `ReservationModal.handleSubmit` inserts (part_001 lines 72 to
77): user id, offer id, kilos and description; every other column takes its
schema default (`status = 'pending_submission'`, NULL tracking code,
`now()` timestamps). `rid` stands for the generated primary key. -/
def newReservationRow (st : DBState) (rid uid offerId : Nat) (kilos : Int)
    (desc : Option String) : Reservation :=
  { id := rid, user_id := uid, cargo_offer_id := offerId, kilos_reserved := kilos,
    shipment_description := desc, status := .pending_submission,
    tracking_code := none, status_updated_at := st.now, created_at := st.now,
    updated_at := st.now }

/-- Handler `ReservationModal.handleSubmit` (part_001 lines 54 to 97): redirect when
not signed in; reject with a toast when `kilos < 1 || kilos >
offer.available_kilos`, judged against the offer object the component was
rendered with (`offerAsRead`, which may be stale by submit time); otherwise
insert the row against the live database `st`. Nothing here reads
`is_active` and nothing re-checks capacity at commit. -/
def handleSubmit (user : Option Nat) (offerAsRead : CargoOffer) (kilos : Int)
    (desc : Option String) (rid : Nat) (rand : Nat → Fin 36) (st : DBState) :
    ReserveOutcome :=
  match user with
  | none => .clientError
  | some uid =>
    if kilos < 1 ∨ kilos > offerAsRead.available_kilos then .clientError
    else
      match apiInsertReservation (.auth uid false) rand
          (newReservationRow st rid uid offerAsRead.id kilos desc) st with
      | .ok st2 => .ok st2
      | .error e => .dbError e

/-- Look an offer up by primary key. -/
def findOffer (st : DBState) (offerId : Nat) : Option CargoOffer :=
  st.offers.find? (fun o => o.id == offerId)

/-- The available kilos of an offer, when it exists. -/
def availOf (st : DBState) (offerId : Nat) : Option Int :=
  (findOffer st offerId).map (fun o => o.available_kilos)

/-- Sum of `kilos_reserved` over the committed reservations of one offer. -/
def totalReserved (st : DBState) (offerId : Nat) : Int :=
  ((st.reservations.filter (fun r => r.cargo_offer_id == offerId)).map
    (fun r => r.kilos_reserved)).sum

/-- Did the submit handler succeed? -/
def reserveSucceeded : ReserveOutcome → Bool
  | .ok _ => true
  | _ => false

/-- The state a successful submit produced, or `default` otherwise. -/
def outcomeState (o : ReserveOutcome) (default : DBState) : DBState :=
  match o with
  | .ok st => st
  | _ => default

/-- The state a successful statement produced, or `default` otherwise. -/
def unwrapOk (e : Except DBError DBState) (default : DBState) : DBState :=
  match e with
  | .ok st => st
  | .error _ => default

/-- Handler `AdminDashboard.handleUpdateStatus` (AdminDashboard.tsx lines 257 to
282) issues `UPDATE reservations SET status = newStatus WHERE id = resId`.
PostgreSQL semantics: a row the UPDATE policies' USING hides is silently
skipped (zero rows updated, no error); on a visible row the BEFORE UPDATE
triggers run (`log_reservation_status_change`, then
`update_reservations_updated_at` setting `updated_at := now()`), then the
new row must pass some policy's check (USING doubles as WITH CHECK since
none declares one) or the statement errors; on success the row is replaced
and the history row the trigger inserted is committed with it. -/
def apiUpdateReservationStatus (a : Actor) (resId : Nat)
    (newStatus : shipment_status) (st : DBState) : Except DBError DBState :=
  match st.reservations.find? (fun r => r.id == resId) with
  | none => .ok st
  | some old =>
    if allowedCmd .update a old then
      let new0 := { old with status := newStatus }
      let p := log_status_change st.now st.histSeq old new0
      let new2 := { p.1 with updated_at := st.now }
      if allowedCmd .update a new2 then
        .ok { st with
          reservations := st.reservations.map (fun r => if r.id == resId then new2 else r),
          status_history := st.status_history ++ p.2.toList,
          histSeq := st.histSeq + p.2.toList.length }
      else .error .rlsViolation
    else .ok st

/-- DELETE of one row of `public.reservations` below the RLS layer, as a
cascade or a privileged role performs it: remove the row, fire the AFTER
DELETE branch of `update_available_kilos` with it as OLD, and cascade-delete
its `status_history` rows (`ON DELETE CASCADE` on the foreign key). -/
def rawDeleteReservation (resId : Nat) (st : DBState) : DBState :=
  match st.reservations.find? (fun r => r.id == resId) with
  | none => st
  | some old =>
    { st with
      reservations := st.reservations.filter (fun r => !(r.id == resId)),
      offers := update_available_kilos .delete st.offers old,
      status_history := st.status_history.filter (fun h => !(h.reservation_id == resId)) }

/-- DELETE on `public.reservations` through the data API:
`DELETE FROM reservations WHERE id = resId`. Under row-level security only
rows passing some DELETE policy's USING are visible to the statement; the
survivors of that filter are deleted, the rest silently persist. -/
def apiDeleteReservation (a : Actor) (resId : Nat) (st : DBState) : DBState :=
  (st.reservations.filter (fun r => r.id == resId && allowedCmd .delete a r)).foldl
    (fun acc r => rawDeleteReservation r.id acc) st

/-- The DELETE policy on `public.cargo_offers`: "Admins can delete cargo
offers" (migration lines 264 to 266). -/
def cargoOfferDeleteAllowed (a : Actor) : Bool := has_role_admin a

/-- Handler `AdminDashboard.handleDeleteOffer` (AdminDashboard.tsx lines 234 to
249): `DELETE FROM cargo_offers WHERE id = offerId`. For an admin the offer
row goes away, the `ON DELETE CASCADE` foreign key removes its reservations
(firing `update_available_kilos` per cascaded row — a no-op UPDATE, since
the only offer it would touch is the one being deleted) and their history
cascades in turn; for anyone else RLS hides the row and nothing happens. -/
def apiDeleteOffer (a : Actor) (offerId : Nat) (st : DBState) : DBState :=
  if cargoOfferDeleteAllowed a then
    let victims := st.reservations.filter (fun r => r.cargo_offer_id == offerId)
    let offers1 := st.offers.filter (fun o => !(o.id == offerId))
    let victimIds := victims.map (fun r => r.id)
    { st with
      offers := victims.foldl (fun os r => update_available_kilos .delete os r) offers1,
      reservations := st.reservations.filter (fun r => !(r.cargo_offer_id == offerId)),
      status_history := st.status_history.filter
        (fun h => !(victimIds.contains h.reservation_id)) }
  else st

/-! ## Public tracking lookup (`Track.handleSearch`, part_002 lines 55
to 101) -/

/-- JavaScript `String.prototype.toUpperCase` on the tracking-code
alphabet. -/
def jsToUpperCase (s : String) : String := String.mk (s.data.map Char.toUpper)

/-- JavaScript `String.prototype.trim`. -/
def jsTrim (s : String) : String :=
  String.mk (((s.data.dropWhile Char.isWhitespace).reverse.dropWhile
    Char.isWhitespace).reverse)

/-- The offer columns the tracking query embeds (part_002 lines 74 to 82):
route and date only. -/
structure TrackedOfferRoute where
  departure_city : String
  departure_country : String
  departure_country_flag : String
  arrival_city : String
  arrival_country : String
  arrival_country_flag : String
  departure_date : String
deriving DecidableEq

/-- The projection the tracking query selects (part_002 lines 66 to 83):
reservation fields without `user_id`, plus the embedded offer route. -/
structure TrackResult where
  id : Nat
  tracking_code : Option String
  kilos_reserved : Int
  shipment_description : Option String
  status : shipment_status
  status_updated_at : Nat
  created_at : Nat
  cargo_offers : Option TrackedOfferRoute
deriving DecidableEq

/-- Build the selected projection of one reservation, embedding its offer's
route columns. -/
def projectTrack (st : DBState) (r : Reservation) : TrackResult :=
  { id := r.id, tracking_code := r.tracking_code,
    kilos_reserved := r.kilos_reserved,
    shipment_description := r.shipment_description, status := r.status,
    status_updated_at := r.status_updated_at, created_at := r.created_at,
    cargo_offers := (findOffer st r.cargo_offer_id).map (fun o =>
      { departure_city := o.departure_city,
        departure_country := o.departure_country,
        departure_country_flag := o.departure_country_flag,
        arrival_city := o.arrival_city, arrival_country := o.arrival_country,
        arrival_country_flag := o.arrival_country_flag,
        departure_date := o.departure_date }) }

/-- Handler `Track.handleSearch`: normalise the input with
`searchCode.trim().toUpperCase()`, then
`SELECT ... FROM reservations WHERE tracking_code = code` with
`.maybeSingle()` — a miss is `none`, not an error. Row-level security
filters the table through the SELECT policies first, so only rows the actor
may see can match. -/
def handleSearch (a : Actor) (input : String) (st : DBState) : Option TrackResult :=
  let code := jsToUpperCase (jsTrim input)
  ((st.reservations.filter (fun r => allowedCmd .select a r)).find?
    (fun r => r.tracking_code == some code)).map (projectTrack st)

/-! ## Sequential fresh-read reservation runner (for the capacity
invariant) -/

/-- One submit request: who reserves how many kilos on which offer, with the
generated row id and the randomness its tracking code draws from. -/
structure ReserveReq where
  uid : Nat
  offerId : Nat
  kilos : Int
  rid : Nat
  rand : Nat → Fin 36

/-- One submit in the sequential regime: the client reads the offer fresh
from the current state and then runs `handleSubmit` against that same
state; a failed submit leaves the database unchanged. -/
def handleSubmitFresh (req : ReserveReq) (st : DBState) : DBState :=
  match findOffer st req.offerId with
  | none => st
  | some o => outcomeState (handleSubmit (some req.uid) o req.kilos none req.rid req.rand st) st

/-- Run a list of fresh-read submits left to right. -/
def runReserves : List ReserveReq → DBState → DBState
  | [], st => st
  | req :: rest, st => runReserves rest (handleSubmitFresh req st)

/-- The offer-table invariant of the claim:
`0 <= available_kilos <= total_kilos` for every offer. -/
def offerInvariant (st : DBState) : Prop :=
  ∀ o ∈ st.offers, 0 ≤ o.available_kilos ∧ o.available_kilos ≤ o.total_kilos

/-- Offer primary keys are pairwise distinct. -/
def offerIdsNodup (st : DBState) : Prop := (st.offers.map (fun o => o.id)).Nodup

instance (st : DBState) : Decidable (offerInvariant st) :=
  List.decidableBAll _ st.offers

instance (st : DBState) : Decidable (offerIdsNodup st) :=
  List.nodupDecidable _

/-! ## Tracking-code shape -/

/-- The regular expression of the spec, over the stored characters:
eleven characters, the prefix `KG-`, then eight symbols from `[A-Z0-9]`. -/
def isValidTrackingCode (s : String) : Bool :=
  s.data.length == 11 && s.data.take 3 == ['K', 'G', '-'] &&
    (s.data.drop 3).all (fun c => trackingChars.data.contains c)

/-- Did the statement commit? -/
def stmtOk : Except DBError DBState → Bool
  | .ok _ => true
  | .error _ => false

/-- How many history rows carry the given status for the given
reservation. -/
def historyCountFor (st : DBState) (rid : Nat) (s : shipment_status) : Nat :=
  (st.status_history.filter (fun h => h.reservation_id == rid && h.status == s)).length

/-! ## Concrete fixtures -/

/-- An active offer with 20 of 20 kilos free. -/
def sampleOffer : CargoOffer :=
  { id := 1, departure_city := "Dakar", departure_country := "Senegal",
    departure_country_flag := "SN", arrival_city := "Douala",
    arrival_country := "Cameroun", arrival_country_flag := "CM",
    departure_date := "2026-02-01", total_kilos := 20, available_kilos := 20,
    price_per_kilo := 5000, is_active := true, created_at := 0, updated_at := 0 }

/-- A database holding just `sampleOffer`. -/
def baseState : DBState :=
  { offers := [sampleOffer], reservations := [], status_history := [],
    histSeq := 0, now := 0 }

/-- A randomness source that always draws symbol 0, i.e. `A`. -/
def randA : Nat → Fin 36 := fun _ => 0

/-- A randomness source that always draws symbol 1, i.e. `B`. -/
def randB : Nat → Fin 36 := fun _ => 1

/-! ## C1 -/

/-- First of two inserts of 15 kg each against the 20 kg `sampleOffer`. -/
def c1_step1 : Except DBError DBState :=
  apiInsertReservation (.auth 7 false) randA
    (newReservationRow baseState 10 7 1 15 none) baseState

/-- State after the first 15 kg insert. -/
def c1_st1 : DBState := unwrapOk c1_step1 baseState

/-- Second insert of 15 kg, by another user, against the same offer. -/
def c1_step2 : Except DBError DBState :=
  apiInsertReservation (.auth 8 false) randB
    (newReservationRow c1_st1 11 8 1 15 none) c1_st1

/-- State after both inserts. -/
def c1_st2 : DBState := unwrapOk c1_step2 c1_st1

/-- Claim C1 is false on the code: nothing in the reservation path checks
capacity, so two committed 15 kg reservations against a 20 kg offer leave
`available_kilos = -10 < 0` and a committed sum of 30 > `total_kilos`. -/
theorem C1_counterexample :
    stmtOk c1_step1 = true ∧ stmtOk c1_step2 = true ∧
    sampleOffer.total_kilos = 20 ∧
    totalReserved c1_st2 1 = 30 ∧ ¬ ((30 : Int) ≤ 20) ∧
    availOf c1_st2 1 = some (-10) ∧ ¬ ((0 : Int) ≤ -10) := by decide

/-! ## C2 -/

/-- The offer as it currently stands: only 5 kg left. -/
def c2_offerNow : CargoOffer := { sampleOffer with available_kilos := 5 }

/-- Current database for the stale-read scenario. -/
def c2_st : DBState :=
  { offers := [c2_offerNow], reservations := [], status_history := [],
    histSeq := 0, now := 0 }

/-- The same offer as the submitting client read it earlier: 20 kg free. -/
def c2_stale : CargoOffer := { c2_offerNow with available_kilos := 20 }

/-- Submit of 10 kg judged against the stale 20 kg read while only 5 kg
remain. -/
def c2_run : ReserveOutcome := handleSubmit (some 7) c2_stale 10 none 10 randA c2_st

/-- Claim C2 is false on the code: the capacity check happens only against
the client's read, never at commit, so a submit of 10 kg succeeds although
the offer's current `available_kilos` is 5, leaving -5. -/
theorem C2_counterexample :
    availOf c2_st 1 = some 5 ∧ (10 : Int) > 5 ∧
    reserveSucceeded c2_run = true ∧
    availOf (outcomeState c2_run c2_st) 1 = some (-5) := by decide

/-! ## C3 -/

/-- A plain 5 kg reservation creation against `baseState`. -/
def c3_run : Except DBError DBState :=
  apiInsertReservation (.auth 7 false) randA
    (newReservationRow baseState 10 7 1 5 none) baseState

/-- Claim C3 is false on the code: `log_status_change` is wired BEFORE
UPDATE only, so creating a reservation writes no `status_history` row at
all — zero `pending_submission` entries, not one. -/
theorem C3_counterexample :
    stmtOk c3_run = true ∧
    historyCountFor (unwrapOk c3_run baseState) 10 .pending_submission = 0 ∧
    (0 : Nat) ≠ 1 := by decide

/-! ## C4 -/

/-- The `sampleOffer` deactivated. -/
def c4_offer : CargoOffer := { sampleOffer with is_active := false }

/-- Database holding only the inactive offer. -/
def c4_st : DBState :=
  { offers := [c4_offer], reservations := [], status_history := [],
    histSeq := 0, now := 0 }

/-- A 5 kg submit against the inactive offer. -/
def c4_run : ReserveOutcome := handleSubmit (some 7) c4_offer 5 none 10 randA c4_st

/-- Claim C4 is false on the code: neither `handleSubmit` nor the INSERT
policy reads `is_active`, so reserving against an inactive offer
succeeds. -/
theorem C4_counterexample :
    c4_offer.is_active = false ∧ reserveSucceeded c4_run = true ∧
    availOf (outcomeState c4_run c4_st) 1 = some 15 := by decide

/-! ## C5 -/

/-- A reservation of user 7 carrying tracking code `KG-AB12CD34`. -/
def c5_res : Reservation :=
  { id := 10, user_id := 7, cargo_offer_id := 1, kilos_reserved := 5,
    shipment_description := none, status := .pending_submission,
    tracking_code := some "KG-AB12CD34", status_updated_at := 0,
    created_at := 0, updated_at := 0 }

/-- Database holding `sampleOffer` and that reservation. -/
def c5_st : DBState :=
  { offers := [sampleOffer], reservations := [c5_res], status_history := [],
    histSeq := 0, now := 0 }

/-- Claim C5 names the intended behaviour, but the code breaks its public
half: the reservation with code `KG-AB12CD34` exists, yet an anonymous
lookup of `kg-ab12cd34` returns not-found because both SELECT policies on
`reservations` demand the owner or an admin; the very same lookup by the
owner succeeds, case-insensitively, with the identity-free projection. -/
theorem C5_bug :
    c5_st.reservations.any (fun r => r.tracking_code == some "KG-AB12CD34") = true ∧
    handleSearch .anon "kg-ab12cd34" c5_st = none ∧
    handleSearch (.auth 7 false) "kg-ab12cd34" c5_st = some (projectTrack c5_st c5_res) := by
  decide

/-! ## C8 counterexample -/

/-- A second offer, primary key 2. -/
def c8_offer2 : CargoOffer := { sampleOffer with id := 2 }

/-- Database with offers 1 and 2. -/
def c8_st0 : DBState :=
  { offers := [sampleOffer, c8_offer2], reservations := [], status_history := [],
    histSeq := 0, now := 0 }

/-- A reservation on offer 1 whose insert supplies its own tracking code
(allowed — see C10). -/
def c8_row1 : Reservation :=
  { id := 10, user_id := 7, cargo_offer_id := 1, kilos_reserved := 5,
    shipment_description := none, status := .pending_submission,
    tracking_code := some "KG-AAAAAAAA", status_updated_at := 0,
    created_at := 0, updated_at := 0 }

/-- Create the first reservation. -/
def c8_step1 : Except DBError DBState := apiInsertReservation (.auth 7 false) randA c8_row1 c8_st0

/-- State after the first creation. -/
def c8_st1 : DBState := unwrapOk c8_step1 c8_st0

/-- An admin deletes offer 1; the cascade removes reservation 10. -/
def c8_st2 : DBState := apiDeleteOffer (.auth 1 true) 1 c8_st1

/-- A later reservation on offer 2 reusing the very same tracking code. -/
def c8_row2 : Reservation := { c8_row1 with id := 11, user_id := 8, cargo_offer_id := 2 }

/-- Create the second reservation. -/
def c8_step3 : Except DBError DBState := apiInsertReservation (.auth 8 false) randA c8_row2 c8_st2

/-- Claim C8 is false on the code in its uniqueness-forever part: the UNIQUE
constraint only sees currently existing rows, so after reservation 10
(code `KG-AAAAAAAA`) is cascade-deleted with its offer, a later reservation
11 is committed with the identical code — two reservations ever created
share one tracking code. -/
theorem C8_counterexample :
    stmtOk c8_step1 = true ∧
    (unwrapOk c8_step1 c8_st0).reservations.any
      (fun r => r.id == 10 && r.tracking_code == some "KG-AAAAAAAA") = true ∧
    c8_st2.reservations.all (fun r => !(r.id == 10)) = true ∧
    stmtOk c8_step3 = true ∧
    (unwrapOk c8_step3 c8_st2).reservations.any
      (fun r => r.id == 11 && r.tracking_code == some "KG-AAAAAAAA") = true ∧
    c8_row1.id ≠ c8_row2.id := by decide

/-! ## Helper lemmas -/

/-- A committed INSERT produces exactly the state the trigger pipeline
prescribes: the post-trigger row appended and `update_available_kilos`
applied to the offers. -/
lemma apiInsert_ok_elim (a : Actor) (rand : Nat → Fin 36) (row : Reservation)
    (st st' : DBState) (h : apiInsertReservation a rand row st = .ok st') :
    st' = { st with
      reservations := st.reservations ++ [set_tracking_code rand row],
      offers := update_available_kilos .insert st.offers (set_tracking_code rand row) } := by
  simp only [apiInsertReservation, rawInsertReservation] at h
  split at h
  · split at h
    · cases h
    · split at h
      · cases h
      · split at h
        · cases h
        · injection h with h1
          exact h1.symm
  · cases h

/-- Function `set_tracking_code` touches only `tracking_code`. -/
lemma set_tracking_code_id (rand : Nat → Fin 36) (r : Reservation) :
    (set_tracking_code rand r).id = r.id := by
  unfold set_tracking_code; split <;> rfl

/-- Function `set_tracking_code` touches only `tracking_code`. -/
lemma set_tracking_code_offer (rand : Nat → Fin 36) (r : Reservation) :
    (set_tracking_code rand r).cargo_offer_id = r.cargo_offer_id := by
  unfold set_tracking_code; split <;> rfl

/-- Function `set_tracking_code` touches only `tracking_code`. -/
lemma set_tracking_code_kilos (rand : Nat → Fin 36) (r : Reservation) :
    (set_tracking_code rand r).kilos_reserved = r.kilos_reserved := by
  unfold set_tracking_code; split <;> rfl

/-- Finding by a predicate no existing element satisfies reaches the
appended element. -/
lemma find_append_of_not_any (l : List Reservation) (p : Reservation → Bool)
    (x : Reservation) (h : l.any p = false) :
    (l ++ [x]).find? p = if p x then some x else none := by
  induction l with
  | nil =>
    simp only [List.nil_append]
    cases hp : p x
    · rw [List.find?_cons_of_neg _ (by simp [hp]), if_neg (by simp [hp])]
      rfl
    · rw [List.find?_cons_of_pos _ hp]
      simp [hp]
  | cons y ys ih =>
    have hy : p y = false := by
      have := h
      simp only [List.any_cons, Bool.or_eq_false_iff] at this
      exact this.1
    have hys : ys.any p = false := by
      have := h
      simp only [List.any_cons, Bool.or_eq_false_iff] at this
      exact this.2
    rw [List.cons_append, List.find?_cons_of_neg _ (by simp [hy]), ih hys]

/-- The DELETE branch of `update_available_kilos` undoes its INSERT branch
for the same reservation row. -/
lemma update_available_kilos_cancel (offers : List CargoOffer) (r : Reservation) :
    update_available_kilos .delete (update_available_kilos .insert offers r) r = offers := by
  show List.map (fun o => if o.id == r.cargo_offer_id then
      { o with available_kilos := o.available_kilos + r.kilos_reserved } else o)
    (List.map (fun o => if o.id == r.cargo_offer_id then
      { o with available_kilos := o.available_kilos - r.kilos_reserved } else o) offers) = offers
  rw [List.map_map]
  have h : ∀ o ∈ offers,
      ((fun o => if o.id == r.cargo_offer_id then
          { o with available_kilos := o.available_kilos + r.kilos_reserved } else o) ∘
        (fun o => if o.id == r.cargo_offer_id then
          { o with available_kilos := o.available_kilos - r.kilos_reserved } else o)) o = o := by
    intro o _
    by_cases hc : (o.id == r.cargo_offer_id) = true
    · simp [Function.comp, hc, Int.sub_add_cancel]
    · simp [Function.comp, hc]
  rw [List.map_congr_left h]
  exact List.map_id' offers

/-! ## C9 -/

/-- Claim C9: row-level security on `public.reservations` declares no
DELETE policy, so no actor can ever delete a reservation row through the
data API — the statement deletes nothing and the state persists
unchanged. -/
theorem C9_no_delete_on_reservations :
    (reservationPolicies.filter (fun p => p.cmd == Cmd.delete)) = [] ∧
    (∀ a r, allowedCmd .delete a r = false) ∧
    (∀ a resId st, apiDeleteReservation a resId st = st) := by
  refine ⟨rfl, fun a r => rfl, fun a resId st => ?_⟩
  show (st.reservations.filter
      (fun r => r.id == resId && allowedCmd .delete a r)).foldl
      (fun acc r => rawDeleteReservation r.id acc) st = st
  have hf : st.reservations.filter
      (fun r => r.id == resId && allowedCmd .delete a r) = [] := by
    have h : ∀ r : Reservation, allowedCmd .delete a r = false := fun r => rfl
    simp [h]
  rw [hf]
  rfl

/-! ## C10 -/

/-- Claim C10: the BEFORE INSERT trigger generates a tracking code only when
the incoming row's `tracking_code` is NULL; a supplied non-null code passes
through the trigger verbatim, the INSERT policy never reads the code, and a
committed insert with a supplied code stores the row exactly as given
(subject only to the UNIQUE constraint inside `apiInsertReservation`). -/
theorem C10_client_supplied_codes :
    (∀ rand r, r.tracking_code = none →
      (set_tracking_code rand r).tracking_code = some (generate_tracking_code rand)) ∧
    (∀ rand r c, r.tracking_code = some c → set_tracking_code rand r = r) ∧
    (∀ a r c, allowedCmd .insert a { r with tracking_code := c } =
      allowedCmd .insert a r) ∧
    (∀ a rand row st st' c, row.tracking_code = some c →
      apiInsertReservation a rand row st = .ok st' →
      st'.reservations = st.reservations ++ [row]) := by
  refine ⟨?_, ?_, ?_, ?_⟩
  · intro rand r h
    simp [set_tracking_code, h]
  · intro rand r c h
    simp [set_tracking_code, h]
  · intro a r c
    rfl
  · intro a rand row st st' c hc h
    have hset : set_tracking_code rand row = row := by
      simp [set_tracking_code, hc]
    have := apiInsert_ok_elim a rand row st st' h
    rw [this, hset]

/-- Witness for C10 at a concrete input: user 8 inserts a reservation that
supplies tracking code `KG-AAAAAAAA` and the committed table ends with that
very row. -/
theorem C10_client_supplied_codes_witness :
    c8_row1.tracking_code = some "KG-AAAAAAAA" ∧
    c8_step1 = .ok (unwrapOk c8_step1 c8_st0) ∧
    (unwrapOk c8_step1 c8_st0).reservations = c8_st0.reservations ++ [c8_row1] :=
  ⟨by decide, by decide,
    C10_client_supplied_codes.2.2.2 (.auth 7 false) randA c8_row1 c8_st0
      (unwrapOk c8_step1 c8_st0) "KG-AAAAAAAA" (by decide) (by decide)⟩

/-! ## C3 amended -/

/-- Claim C3 amended: reservation creation writes no StatusHistoryEntry at
all — `log_status_change` fires BEFORE UPDATE only — so the history table
is untouched by every committed insert; the first entry for a reservation
can only appear at a later status update. -/
theorem C3_amended_no_history_at_creation (a : Actor) (rand : Nat → Fin 36)
    (row : Reservation) (st st' : DBState)
    (h : apiInsertReservation a rand row st = .ok st') :
    st'.status_history = st.status_history := by
  rw [apiInsert_ok_elim a rand row st st' h]

/-- Witness for the amended C3: the concrete creation of `c3_run` leaves
`status_history` empty. -/
theorem C3_amended_witness :
    c3_run = .ok (unwrapOk c3_run baseState) ∧
    (unwrapOk c3_run baseState).status_history = baseState.status_history :=
  ⟨by decide,
    C3_amended_no_history_at_creation (.auth 7 false) randA
      (newReservationRow baseState 10 7 1 5 none) baseState
      (unwrapOk c3_run baseState) (by decide)⟩

/-! ## C7 -/

/-- Claim C7: a committed reservation INSERT immediately followed by the
DELETE of that same row leaves every offer's `available_kilos` exactly
where it started — the DELETE branch of `update_available_kilos` adds back
precisely what the INSERT branch subtracted. -/
theorem C7_reserve_then_cancel (a : Actor) (rand : Nat → Fin 36)
    (row : Reservation) (st st' : DBState) (offerId : Nat)
    (hfresh : st.reservations.any (fun r => r.id == row.id) = false)
    (hrun : apiInsertReservation a rand row st = .ok st') :
    availOf (rawDeleteReservation row.id st') offerId = availOf st offerId := by
  have hst' := apiInsert_ok_elim a rand row st st' hrun
  subst hst'
  have hp : ((set_tracking_code rand row).id == row.id) = true := by
    rw [set_tracking_code_id]
    simp
  have hfind : ((st.reservations ++ [set_tracking_code rand row]).find?
      (fun r => r.id == row.id)) = some (set_tracking_code rand row) := by
    rw [find_append_of_not_any _ _ _ hfresh, if_pos hp]
  simp only [rawDeleteReservation, hfind]
  simp [availOf, findOffer, update_available_kilos_cancel]

/-- A fresh 8 kg reservation for the C7 witness. -/
def c7_run : Except DBError DBState :=
  apiInsertReservation (.auth 7 false) randA
    (newReservationRow baseState 77 7 1 8 none) baseState

/-- Witness for C7: reserving 8 kg on the 20 kg offer and deleting the row
again leaves `available_kilos` at 20. -/
theorem C7_reserve_then_cancel_witness :
    baseState.reservations.any (fun r => r.id == 77) = false ∧
    c7_run = .ok (unwrapOk c7_run baseState) ∧
    availOf (rawDeleteReservation 77 (unwrapOk c7_run baseState)) 1 = availOf baseState 1 :=
  ⟨by decide, by decide,
    C7_reserve_then_cancel (.auth 7 false) randA
      (newReservationRow baseState 77 7 1 8 none) baseState
      (unwrapOk c7_run baseState) 1 (by decide) (by decide)⟩

/-! ## C6 -/

/-- The `status_updated_at` column of the reservation with the given id. -/
def statusUpdatedAtOf (st : DBState) (resId : Nat) : Option Nat :=
  (st.reservations.find? (fun r => r.id == resId)).map (fun r => r.status_updated_at)

/-- Finding by id through the single-row UPDATE's map: every located row is
the replacement, and the search succeeds exactly when it did before. -/
lemma find_update_map (l : List Reservation) (resId : Nat) (new2 : Reservation)
    (hid : (new2.id == resId) = true) :
    (l.map (fun r => if r.id == resId then new2 else r)).find? (fun r => r.id == resId)
      = (l.find? (fun r => r.id == resId)).map (fun _ => new2) := by
  induction l with
  | nil => rfl
  | cons x xs ih =>
    by_cases hx : (x.id == resId) = true
    · simp [List.find?, hx, hid]
    · rw [List.map_cons, if_neg hx, List.find?_cons_of_neg _ (by simpa using hx),
        List.find?_cons_of_neg _ (by simpa using hx), ih]

/-- Claim C6: a performed status UPDATE appends a history row and stamps
`status_updated_at` if and only if the requested status differs from the
current one. When it differs, exactly one entry with the new status is
appended and `status_updated_at` becomes `now`; when it is equal, the
history and `status_updated_at` are untouched. -/
theorem C6_transition_iff (a : Actor) (resId : Nat)
    (newStatus : shipment_status) (st st' : DBState) (old : Reservation)
    (hfind : st.reservations.find? (fun r => r.id == resId) = some old)
    (hallow : allowedCmd .update a old = true)
    (hrun : apiUpdateReservationStatus a resId newStatus st = .ok st') :
    (newStatus ≠ old.status →
      st'.status_history = st.status_history ++
        [{ id := st.histSeq, reservation_id := old.id, status := newStatus,
           notes := none, created_at := st.now }] ∧
      statusUpdatedAtOf st' resId = some st.now) ∧
    (newStatus = old.status →
      st'.status_history = st.status_history ∧
      statusUpdatedAtOf st' resId = statusUpdatedAtOf st resId) := by
  have holdid : (old.id == resId) = true := by
    have h2 := List.find?_some hfind
    simpa using h2
  simp only [apiUpdateReservationStatus, hfind] at hrun
  rw [if_pos hallow] at hrun
  generalize hlog : log_status_change st.now st.histSeq old { old with status := newStatus } = pr at hrun
  obtain ⟨new1, entry?⟩ := pr
  by_cases hne : newStatus = old.status
  · have hcond : ¬(old.status ≠ ({ old with status := newStatus } : Reservation).status) := by
      simp [hne]
    simp only [log_status_change, if_neg hcond] at hlog
    injection hlog with h1 h2
    subst h1
    subst h2
    split at hrun
    · injection hrun with h3
      subst h3
      refine ⟨fun h => absurd hne h, fun _ => ⟨by simp, ?_⟩⟩
      unfold statusUpdatedAtOf
      rw [find_update_map _ _ _ (by simpa using holdid), hfind]
      simp
    · cases hrun
  · have hcond : old.status ≠ ({ old with status := newStatus } : Reservation).status := by
      simp
      exact fun h => hne h.symm
    simp only [log_status_change, if_pos hcond] at hlog
    injection hlog with h1 h2
    subst h1
    subst h2
    split at hrun
    · injection hrun with h3
      subst h3
      refine ⟨fun _ => ⟨by simp, ?_⟩, fun h => absurd h hne⟩
      unfold statusUpdatedAtOf
      rw [find_update_map _ _ _ (by simpa using holdid), hfind]
      simp
    · cases hrun

/-- Reservation fixture for the C6 witness: currently
`pending_submission`, last stamped at 3. -/
def c6_res : Reservation :=
  { id := 10, user_id := 7, cargo_offer_id := 1, kilos_reserved := 5,
    shipment_description := none, status := .pending_submission,
    tracking_code := some "KG-AB12CD34", status_updated_at := 3,
    created_at := 0, updated_at := 0 }

/-- Database for the C6 witness, clock at 9, history sequence at 4. -/
def c6_st : DBState :=
  { offers := [], reservations := [c6_res], status_history := [],
    histSeq := 4, now := 9 }

/-- An admin moves reservation 10 to `in_transit`. -/
def c6_run : Except DBError DBState :=
  apiUpdateReservationStatus (.auth 1 true) 10 .in_transit c6_st

/-- State after the C6 witness transition. -/
def c6_stAfter : DBState := unwrapOk c6_run c6_st

/-- Witness for C6: the concrete admin transition from
`pending_submission` to `in_transit` appends exactly one history row with
the new status and stamps `status_updated_at := 9`. -/
theorem C6_transition_iff_witness :
    (c6_st.reservations.find? (fun r => r.id == 10) = some c6_res ∧
     allowedCmd .update (.auth 1 true) c6_res = true ∧
     c6_run = .ok c6_stAfter) ∧
    (c6_stAfter.status_history = c6_st.status_history ++
       [{ id := 4, reservation_id := 10, status := .in_transit,
          notes := none, created_at := 9 }] ∧
     statusUpdatedAtOf c6_stAfter 10 = some 9) :=
  ⟨⟨by decide, by decide, by decide⟩,
    (C6_transition_iff (.auth 1 true) 10 .in_transit c6_st c6_stAfter c6_res
      (by decide) (by decide) (by decide)).1 (by decide)⟩

/-! ## C2 amended -/

/-- Sequential scenario step 1: user 7 reserves 15 kg on the fresh
20 kg read. -/
def sc_run1 : ReserveOutcome := handleSubmit (some 7) sampleOffer 15 none 100 randA baseState

/-- State after step 1. -/
def sc_st1 : DBState := outcomeState sc_run1 baseState

/-- The offer as re-read after step 1. -/
def sc_read1 : CargoOffer := (findOffer sc_st1 1).getD sampleOffer

/-- Step 2: user 8 asks for 10 kg against the fresh 5 kg read. -/
def sc_run2 : ReserveOutcome := handleSubmit (some 8) sc_read1 10 none 101 randB sc_st1

/-- Step 3: user 9 asks for 5 kg against the same fresh read. -/
def sc_run3 : ReserveOutcome := handleSubmit (some 9) sc_read1 5 none 102 randB sc_st1

/-- State after step 3. -/
def sc_st3 : DBState := outcomeState sc_run3 sc_st1

/-- Claim C2 amended: the capacity check lives in the client handler and is
judged against the `available_kilos` value the client read — any request
exceeding that read value fails client-side (no separate CapacityExceeded
error exists; the commit itself re-checks nothing, see the counterexample).
Under sequential fresh reads the spec scenario holds: 20 kg free, 15 kg
succeeds leaving 5, 10 kg fails, 5 kg succeeds leaving 0. -/
theorem C2_amended_read_time_check :
    (∀ (uid : Nat) (o : CargoOffer) (kilos : Int) (desc : Option String)
       (rid : Nat) (rand : Nat → Fin 36) (st : DBState),
       kilos > o.available_kilos →
       handleSubmit (some uid) o kilos desc rid rand st = .clientError) ∧
    (reserveSucceeded sc_run1 = true ∧ availOf sc_st1 1 = some 5 ∧
     sc_read1.available_kilos = 5 ∧
     sc_run2 = .clientError ∧
     reserveSucceeded sc_run3 = true ∧ availOf sc_st3 1 = some 0) := by
  constructor
  · intro uid o kilos desc rid rand st h
    simp only [handleSubmit]
    rw [if_pos (Or.inr h)]
  · exact ⟨by decide, by decide, by decide, by decide, by decide, by decide⟩

/-- Witness for the amended C2: a 10 kg request against a 5 kg read fails
client-side. -/
theorem C2_amended_read_time_check_witness :
    (10 : Int) > c2_offerNow.available_kilos ∧
    handleSubmit (some 7) c2_offerNow 10 none 50 randA c2_st = .clientError :=
  ⟨by decide,
    C2_amended_read_time_check.1 7 c2_offerNow 10 none 50 randA c2_st (by decide)⟩

/-! ## C4 amended -/

/-- Claim C4 amended: no `OfferInactive` failure exists anywhere — neither
the submit handler nor the INSERT policy reads `is_active`, so a
reservation against an inactive offer succeeds whenever the kilos pass the
client range check and the row satisfies the table constraints. -/
theorem C4_amended_no_activity_check (uid : Nat) (o : CargoOffer) (kilos : Int)
    (desc : Option String) (rid : Nat) (rand : Nat → Fin 36) (st : DBState)
    (hinact : o.is_active = false)
    (hmem : st.offers.any (fun x => x.id == o.id) = true)
    (hk1 : 1 ≤ kilos) (hk2 : kilos ≤ o.available_kilos)
    (hid : st.reservations.any (fun r => r.id == rid) = false)
    (hcode : codeTaken st (some (generate_tracking_code rand)) = false) :
    reserveSucceeded (handleSubmit (some uid) o kilos desc rid rand st) = true := by
  simp only [handleSubmit]
  rw [if_neg (by omega)]
  have hpol : allowedCmd .insert (.auth uid false)
      (newReservationRow st rid uid o.id kilos desc) = true := by
    simp [allowedCmd, reservationPolicies, authUid, newReservationRow]
  simp only [apiInsertReservation]
  rw [if_pos hpol]
  have hset : set_tracking_code rand (newReservationRow st rid uid o.id kilos desc) =
      { newReservationRow st rid uid o.id kilos desc with
        tracking_code := some (generate_tracking_code rand) } := rfl
  simp only [rawInsertReservation, hset]
  rw [if_neg (by simp [newReservationRow, hmem]), if_neg (by simp [newReservationRow, hid]),
    if_neg (by simp [newReservationRow, hcode])]
  rfl

/-- Witness for the amended C4: the concrete 5 kg submit against the
deactivated `c4_offer` succeeds. -/
theorem C4_amended_no_activity_check_witness :
    (c4_offer.is_active = false ∧ c4_st.offers.any (fun x => x.id == c4_offer.id) = true ∧
     (1 : Int) ≤ 5 ∧ (5 : Int) ≤ c4_offer.available_kilos ∧
     c4_st.reservations.any (fun r => r.id == 60) = false ∧
     codeTaken c4_st (some (generate_tracking_code randB)) = false) ∧
    reserveSucceeded (handleSubmit (some 7) c4_offer 5 none 60 randB c4_st) = true :=
  ⟨⟨by decide, by decide, by decide, by decide, by decide, by decide⟩,
    C4_amended_no_activity_check 7 c4_offer 5 none 60 randB c4_st (by decide)
      (by decide) (by decide) (by decide) (by decide) (by decide)⟩

/-! ## C8 amended -/

/-- Every pair of coexisting reservations carries distinct tracking codes
(NULLs excepted, as SQL UNIQUE ignores them). -/
def codesDistinct (st : DBState) : Prop :=
  st.reservations.Pairwise
    (fun r1 r2 => r1.tracking_code = none ∨ r1.tracking_code ≠ r2.tracking_code)

/-- A committed INSERT also certifies its tracking code was free. -/
lemma apiInsert_ok_codeFree (a : Actor) (rand : Nat → Fin 36) (row : Reservation)
    (st st' : DBState) (h : apiInsertReservation a rand row st = .ok st') :
    codeTaken st (set_tracking_code rand row).tracking_code = false := by
  simp only [apiInsertReservation, rawInsertReservation] at h
  split at h
  · split at h
    · cases h
    · split at h
      · cases h
      · split at h
        · cases h
        · rename_i hfree
          simpa using hfree
  · cases h

/-- Claim C8 amended: every generated code matches `^KG-[A-Z0-9]{8}$` (11
characters), the draw-to-symbol map is injective on the 36-symbol alphabet
(so uniform draws give uniform symbols), and the UNIQUE constraint keeps
codes pairwise distinct among reservations that exist at the same time —
but not across all reservations ever created (see the counterexample). -/
theorem C8_amended_format_and_coexistence_uniqueness :
    (∀ rand, isValidTrackingCode (generate_tracking_code rand) = true) ∧
    (∀ d1 d2 : Fin 36,
      trackingChars.data.getD d1.val 'A' = trackingChars.data.getD d2.val 'A' →
      d1 = d2) ∧
    (∀ a rand row st st', codesDistinct st →
      apiInsertReservation a rand row st = .ok st' → codesDistinct st') := by
  refine ⟨?_, by decide, ?_⟩
  · intro rand
    have hdata : (generate_tracking_code rand).data =
        'K' :: 'G' :: '-' ::
          (List.range 8).map (fun i => trackingChars.data.getD (rand i).val 'A') := rfl
    show (_ && _ && _) = true
    rw [Bool.and_eq_true, Bool.and_eq_true]
    refine ⟨⟨?_, ?_⟩, ?_⟩
    · rw [hdata]
      rfl
    · rw [hdata]
      rfl
    · rw [hdata]
      show ((List.range 8).map (fun i => trackingChars.data.getD (rand i).val 'A')).all
        (fun c => trackingChars.data.contains c) = true
      rw [List.all_eq_true]
      intro c hc
      rw [List.mem_map] at hc
      obtain ⟨i, _, rfl⟩ := hc
      exact (by decide :
        ∀ d : Fin 36, trackingChars.data.contains (trackingChars.data.getD d.val 'A') = true)
        (rand i)
  · intro a rand row st st' hdist hrun
    have hfree := apiInsert_ok_codeFree a rand row st st' hrun
    rw [apiInsert_ok_elim a rand row st st' hrun]
    show (st.reservations ++ [set_tracking_code rand row]).Pairwise _
    rw [List.pairwise_append]
    refine ⟨hdist, List.pairwise_singleton _ _, ?_⟩
    intro x hx y hy
    rw [List.mem_singleton] at hy
    subst hy
    by_cases hxc : x.tracking_code = none
    · exact Or.inl hxc
    · refine Or.inr (fun heq => ?_)
      obtain ⟨c, hc⟩ := Option.ne_none_iff_exists'.mp hxc
      rw [hc] at heq
      rw [← heq] at hfree
      simp only [codeTaken] at hfree
      have hany : st.reservations.any (fun r => r.tracking_code == some c) = true :=
        List.any_eq_true.mpr ⟨x, hx, by rw [hc]; simp⟩
      rw [hany] at hfree
      cases hfree

/-- A fresh reservation insert for the C8-amended witness. -/
def c8w_run : Except DBError DBState :=
  apiInsertReservation (.auth 7 false) randB
    (newReservationRow baseState 55 7 1 3 none) baseState

/-- Witness for the amended C8: the `randA` code is well-formed and code
distinctness survives a concrete committed insert. -/
theorem C8_amended_witness :
    (codesDistinct baseState ∧ c8w_run = .ok (unwrapOk c8w_run baseState)) ∧
    isValidTrackingCode (generate_tracking_code randA) = true ∧
    codesDistinct (unwrapOk c8w_run baseState) :=
  ⟨⟨List.Pairwise.nil, by decide⟩,
    C8_amended_format_and_coexistence_uniqueness.1 randA,
    C8_amended_format_and_coexistence_uniqueness.2.2 (.auth 7 false) randB
      (newReservationRow baseState 55 7 1 3 none) baseState
      (unwrapOk c8w_run baseState) List.Pairwise.nil (by decide)⟩

/-! ## C1 amended -/

/-- The kilos trigger's INSERT branch never changes the offers' ids. -/
lemma update_insert_ids (offers : List CargoOffer) (r : Reservation) :
    (update_available_kilos .insert offers r).map (fun o => o.id) =
      offers.map (fun o => o.id) := by
  show ((offers.map (fun o => if o.id == r.cargo_offer_id then
      { o with available_kilos := o.available_kilos - r.kilos_reserved } else o)).map
      (fun o => o.id)) = offers.map (fun o => o.id)
  rw [List.map_map]
  apply List.map_congr_left
  intro x _
  by_cases hc : (x.id == r.cargo_offer_id) = true
  · simp [Function.comp, hc]
  · simp [Function.comp, hc]

/-- Members of the trigger's output come from members of its input. -/
lemma update_insert_mem (offers : List CargoOffer) (r : Reservation) (o' : CargoOffer)
    (h : o' ∈ update_available_kilos .insert offers r) :
    ∃ o0 ∈ offers, o' = if o0.id == r.cargo_offer_id then
      { o0 with available_kilos := o0.available_kilos - r.kilos_reserved } else o0 := by
  have h' : o' ∈ offers.map (fun o0 => if o0.id == r.cargo_offer_id then
      { o0 with available_kilos := o0.available_kilos - r.kilos_reserved } else o0) := h
  rw [List.mem_map] at h'
  obtain ⟨o0, ho0, heq⟩ := h'
  exact ⟨o0, ho0, heq.symm⟩

/-- A submit that returned `.ok` passed the client range check against the
offer it was given and committed the corresponding insert. -/
lemma handleSubmit_ok_elim (uid : Nat) (o : CargoOffer) (kilos : Int)
    (desc : Option String) (rid : Nat) (rand : Nat → Fin 36) (st st2 : DBState)
    (h : handleSubmit (some uid) o kilos desc rid rand st = .ok st2) :
    ¬(kilos < 1 ∨ kilos > o.available_kilos) ∧
    apiInsertReservation (.auth uid false) rand
      (newReservationRow st rid uid o.id kilos desc) st = .ok st2 := by
  simp only [handleSubmit] at h
  split at h
  · cases h
  · rename_i hguard
    refine ⟨hguard, ?_⟩
    split at h
    · rename_i st3 hst3
      injection h with h1
      rw [h1] at hst3
      exact hst3
    · cases h

/-- One fresh-read submit preserves both distinct offer ids and the
capacity invariant: the committed decrement is bounded by the
`available_kilos` the fresh read returned, which is the current value. -/
lemma handleSubmitFresh_preserves (req : ReserveReq) (st : DBState)
    (hids : offerIdsNodup st) (hinv : offerInvariant st) :
    offerIdsNodup (handleSubmitFresh req st) ∧ offerInvariant (handleSubmitFresh req st) := by
  have hids' : (st.offers.map (fun o => o.id)).Nodup := hids
  unfold handleSubmitFresh
  cases hfo : findOffer st req.offerId with
  | none => exact ⟨hids, hinv⟩
  | some o =>
    have hmem : o ∈ st.offers := List.mem_of_find?_eq_some hfo
    have hoid : (o.id == req.offerId) = true := by
      have h2 := List.find?_some hfo
      simpa using h2
    change offerIdsNodup (outcomeState
        (handleSubmit (some req.uid) o req.kilos none req.rid req.rand st) st) ∧
      offerInvariant (outcomeState
        (handleSubmit (some req.uid) o req.kilos none req.rid req.rand st) st)
    cases hrun : handleSubmit (some req.uid) o req.kilos none req.rid req.rand st with
    | clientError => exact ⟨hids, hinv⟩
    | dbError e => exact ⟨hids, hinv⟩
    | ok st2 =>
      obtain ⟨hguard, hins⟩ :=
        handleSubmit_ok_elim req.uid o req.kilos none req.rid req.rand st st2 hrun
      push_neg at hguard
      obtain ⟨hk1, hk2⟩ := hguard
      have hstruct := apiInsert_ok_elim _ _ _ _ _ hins
      subst hstruct
      have hrowo : (set_tracking_code req.rand
          (newReservationRow st req.rid req.uid o.id req.kilos none)).cargo_offer_id = o.id := by
        rw [set_tracking_code_offer]
        rfl
      have hrowk : (set_tracking_code req.rand
          (newReservationRow st req.rid req.uid o.id req.kilos none)).kilos_reserved = req.kilos := by
        rw [set_tracking_code_kilos]
        rfl
      constructor
      · show ((update_available_kilos .insert st.offers _).map (fun o => o.id)).Nodup
        rw [update_insert_ids]
        exact hids'
      · intro o' ho'
        obtain ⟨o0, ho0, heq⟩ := update_insert_mem _ _ _ ho'
        by_cases hc : (o0.id == (set_tracking_code req.rand
            (newReservationRow st req.rid req.uid o.id req.kilos none)).cargo_offer_id) = true
        · rw [if_pos hc] at heq
          have ho0id : o0.id = o.id := by
            have h1 : o0.id = (set_tracking_code req.rand
                (newReservationRow st req.rid req.uid o.id req.kilos none)).cargo_offer_id := by
              simpa using hc
            rw [h1, hrowo]
          have ho0o : o0 = o := List.inj_on_of_nodup_map hids' ho0 hmem ho0id
          obtain ⟨hlo, hhi⟩ := hinv o0 ho0
          have havail : o0.available_kilos = o.available_kilos := by rw [ho0o]
          subst heq
          refine ⟨?_, ?_⟩
          · show 0 ≤ o0.available_kilos - (set_tracking_code req.rand
              (newReservationRow st req.rid req.uid o.id req.kilos none)).kilos_reserved
            rw [set_tracking_code_kilos]
            show 0 ≤ o0.available_kilos - req.kilos
            omega
          · show o0.available_kilos - (set_tracking_code req.rand
              (newReservationRow st req.rid req.uid o.id req.kilos none)).kilos_reserved ≤
              o0.total_kilos
            rw [set_tracking_code_kilos]
            show o0.available_kilos - req.kilos ≤ o0.total_kilos
            omega
        · rw [if_neg hc] at heq
          rw [heq]
          exact hinv o0 ho0

/-- Claim C1 amended: nothing in the code enforces the invariant (see the
counterexample), but it is preserved by every sequence of submits whose
range check runs against a fresh read — i.e. whenever each committed
decrement is bounded by the offer's current `available_kilos`, every
offer keeps `0 <= available_kilos <= total_kilos`, and hence committed
kilos never exceed `total_kilos`. -/
theorem C1_amended_fresh_read_invariant (reqs : List ReserveReq) (st : DBState)
    (hids : offerIdsNodup st) (hinv : offerInvariant st) :
    offerInvariant (runReserves reqs st) := by
  induction reqs generalizing st with
  | nil => exact hinv
  | cons req rest ih =>
    obtain ⟨hids2, hinv2⟩ := handleSubmitFresh_preserves req st hids hinv
    exact ih (handleSubmitFresh req st) hids2 hinv2

/-- Witness for the amended C1: running the 15 kg / 10 kg / 5 kg fresh-read
sequence from the 20 kg base state keeps the invariant. -/
theorem C1_amended_fresh_read_invariant_witness :
    (offerIdsNodup baseState ∧ offerInvariant baseState) ∧
    offerInvariant (runReserves
      [⟨7, 1, 15, 100, randA⟩, ⟨8, 1, 10, 101, randB⟩, ⟨9, 1, 5, 102, randB⟩]
      baseState) :=
  ⟨⟨by decide, by decide⟩,
    C1_amended_fresh_read_invariant
      [⟨7, 1, 15, 100, randA⟩, ⟨8, 1, 10, 101, randB⟩, ⟨9, 1, 5, 102, randB⟩]
      baseState (by decide) (by decide)⟩

end Kilotravel
